import Mathlib

/-!
Shallow embedding of the Nuri procurement-crawler pipeline
(`src/crawler/client.py`, `src/crawler/transformer.py`,
`src/crawler/storage.py`, `src/crawler/crawler.py`) and proofs about it.

The network, clock and SQLite layers are modelled as explicit data:
each HTTP attempt's outcome is drawn from an environment `Nat → Exchange`,
sleeping is recorded in a trace, and the database is a triple of row lists
whose transactional writes either commit together or roll back.
-/

namespace Nuri

/-! ## JSON-like values (`dict` / `list` payloads of the API) -/

inductive JVal where
  | jnull : JVal
  | jbool : Bool → JVal
  | jnum : Int → JVal
  | jstr : String → JVal
  | jarr : List JVal → JVal
  | jdict : List (String × JVal) → JVal

/-- Python `d[k]` lookup on a dict represented as an association list. -/
def jLookup (entries : List (String × JVal)) (key : String) : Option JVal :=
  match entries with
  | [] => none
  | (k, v) :: rest => if k = key then some v else jLookup rest key

/-- `isinstance(v, list)` returning the elements. -/
def asList : JVal → Option (List JVal)
  | .jarr xs => some xs
  | _ => none

/-! ## Network client (`client.py`) -/

def MAX_RETRIES : Nat := 3
def RETRY_BACKOFF_BASE : Nat := 2
def RETRY_BACKOFF_MAX : Nat := 10
def RATE_LIMIT_WAIT : Nat := 60

/-- Outcome of one `session.post` exchange, as seen by `_make_request`.
`retryAfter`: `none` = no `Retry-After` header, `some none` = header present
but not parseable by `int(...)`, `some (some n)` = header parses to `n`. -/
inductive Exchange where
  | resp (statusCode : Nat) (retryAfter : Option (Option Nat)) (body : JVal)
  | transportErr
  | unexpectedErr

/-- What `_make_request` does overall: returns a body, returns `None`,
or raises `NonRetryableAPIError`. -/
inductive ReqOutcome where
  | ok (body : JVal)
  | nullResult
  | fatal

structure ReqTrace where
  outcome : ReqOutcome
  sleeps : List Nat
  requests : Nat

/-- `min(RETRY_BACKOFF_BASE ** attempt, RETRY_BACKOFF_MAX)` -/
def backoffWait (attempt : Nat) : Nat :=
  min (RETRY_BACKOFF_BASE ^ attempt) RETRY_BACKOFF_MAX

/-- The body of `for attempt in range(1, self.max_retries + 1)` in
`NuriAPIClient._make_request`, recursing over the remaining attempt numbers.
An exhausted loop returns `None`. -/
def runAttempts (env : Nat → Exchange) (maxRetries : Nat) : List Nat → ReqTrace
  | [] => ⟨.nullResult, [], 0⟩
  | attempt :: rest =>
    match env attempt with
    | .resp code retryAfter _body =>
      if code = 429 then
        match retryAfter with
        | none =>
          let t := runAttempts env maxRetries rest
          ⟨t.outcome, RATE_LIMIT_WAIT :: t.sleeps, t.requests + 1⟩
        | some none => ⟨.fatal, [], 1⟩
        | some (some n) =>
          let t := runAttempts env maxRetries rest
          ⟨t.outcome, n :: t.sleeps, t.requests + 1⟩
      else if 500 ≤ code ∧ code < 600 then
        if attempt < maxRetries then
          let t := runAttempts env maxRetries rest
          ⟨t.outcome, backoffWait attempt :: t.sleeps, t.requests + 1⟩
        else ⟨.nullResult, [], 1⟩
      else if 400 ≤ code ∧ code < 500 then ⟨.fatal, [], 1⟩
      else if code = 200 then ⟨.ok _body, [], 1⟩
      else
        let t := runAttempts env maxRetries rest
        ⟨t.outcome, t.sleeps, t.requests + 1⟩
    | .transportErr =>
      if attempt < maxRetries then
        let t := runAttempts env maxRetries rest
        ⟨t.outcome, backoffWait attempt :: t.sleeps, t.requests + 1⟩
      else
        let t := runAttempts env maxRetries rest
        ⟨t.outcome, t.sleeps, t.requests + 1⟩
    | .unexpectedErr => ⟨.fatal, [], 1⟩

/-- `NuriAPIClient._make_request` with the i-th attempt's exchange outcome
given by `env i`. -/
def make_request (env : Nat → Exchange) (maxRetries : Nat) : ReqTrace :=
  runAttempts env maxRetries (List.range' 1 maxRetries)

example : make_request (fun _ => .resp 500 none .jnull) 3 =
    ⟨.nullResult, [2, 4], 3⟩ := rfl

example : make_request (fun _ => .resp 400 none .jnull) 3 =
    ⟨.fatal, [], 1⟩ := rfl

example : make_request (fun i => if i = 1 then .transportErr else .resp 200 none .jnull) 3 =
    ⟨.ok .jnull, [2], 2⟩ := rfl

/-! ## Transformer (`transformer.py`) -/

def LIST_KEYS : List String := ["result", "list", "resultList", "data", "rows"]

/-- The `for key in self.LIST_KEYS` loop of `extract_notices`: first key that
is present and whose value is a list. -/
def probeListKeys (entries : List (String × JVal)) : List String → Option (List JVal)
  | [] => none
  | key :: restKeys =>
    match jLookup entries key with
    | some v =>
      match asList v with
      | some xs => some xs
      | none => probeListKeys entries restKeys
    | none => probeListKeys entries restKeys

/-- `NuriDataTransformer.extract_notices`. The non-dict guard returns `[]`
first; the trailing `isinstance(response, list)` branch of the source is kept
but can only be reached with `response` a dict, so it never fires. -/
def extract_notices (response : JVal) : List JVal :=
  match response with
  | .jdict entries =>
    match probeListKeys entries LIST_KEYS with
    | some xs => xs
    | none =>
      match asList response with
      | some xs => xs
      | none => []
  | _ => []

example : extract_notices (.jdict [("rows", .jarr [.jnull]), ("result", .jstr "x")]) =
    [JVal.jnull] := rfl

/-- The `'제목없음'` placeholder title. -/
def NO_TITLE : String := "제목없음"

/-- `NoticeDTO` (`transformer.py`). `raw_data` keeps the original payload as
an association list (the Python dict). -/
structure NoticeDTO where
  notice_id : String
  title : String
  org_name : String
  notice_type : String
  bid_method : Option String := none
  due_date : Option String := none
  announce_date : Option String := none
  budget : Option String := none
  demand_company : Option String := none
  detail_url : Option String := none
  raw_data : Option (List (String × JVal)) := none

/-- `validate_notice_dto`: Python truthiness of a `str` is non-emptiness. -/
def validate_notice_dto (dto : NoticeDTO) : Except String Unit :=
  if dto.notice_id = "" then .error "공고 번호 누락"
  else if dto.title = "" ∨ dto.title = NO_TITLE then .error "유효하지 않은 공고명"
  else if dto.notice_id.length < 1 then .error "공고 번호 형식 오류"
  else .ok ()

/-- Python truthiness of an `Optional[str]` field. -/
def truthyOptStr : Option String → Bool
  | none => false
  | some s => decide (s ≠ "")

/-- `str(v)` on the JSON values the detail payload can carry. -/
def strOfJVal : JVal → String
  | .jstr s => s
  | .jnum n => toString n
  | .jbool b => toString b
  | _ => ""

/-- Python dict assignment `rd['detail'] = v` on the association list. -/
def setEntry (rd : List (String × JVal)) (key : String) (v : JVal) :
    List (String × JVal) :=
  rd.filter (fun p => decide (p.1 ≠ key)) ++ [(key, v)]

/-- `NuriDataTransformer.enrich_with_detail`. -/
def enrich_with_detail (dto : NoticeDTO) (detail_data : JVal) : NoticeDTO :=
  match detail_data with
  | .jdict entries =>
    let dto1 :=
      if truthyOptStr dto.budget = false ∧ (jLookup entries "bscAmt").isSome then
        {dto with budget := (jLookup entries "bscAmt").map strOfJVal}
      else dto
    let dto2 :=
      if truthyOptStr dto1.demand_company = false ∧ (jLookup entries "dmndComp").isSome then
        {dto1 with demand_company := (jLookup entries "dmndComp").map strOfJVal}
      else dto1
    match dto2.raw_data with
    | some rd => {dto2 with raw_data := some (setEntry rd "detail" detail_data)}
    | none => dto2
  | _ => dto

/-! ## Storage (`storage.py`) -/

/-- A `scrap_log` row (`notice_id` is UNIQUE; status SUCCESS / FAILED). -/
structure ScrapLogRow where
  notice_id : String
  status : String
  error_msg : Option String
  collected_at : Nat
  deriving DecidableEq

/-- A `nuri_notices` row (`notice_id` is the primary key). -/
structure NoticeRow where
  notice_id : String
  title : String
  org_name : Option String
  notice_type : Option String
  bid_method : Option String
  due_date : Option String
  announce_date : Option String
  budget : Option String
  demand_company : Option String
  detail_url : Option String
  raw_data : List (String × JVal)

/-- A `crawl_sessions` row (counter columns default to 0). -/
structure SessionRow where
  id : Nat
  started_at : Nat
  finished_at : Option Nat
  total_found : Nat
  total_collected : Nat
  total_skipped : Nat
  total_errors : Nat
  status : String
  deriving DecidableEq

/-- The SQLite database of `CrawlerStorage`. -/
structure StorageState where
  notices : List NoticeRow
  scrap_log : List ScrapLogRow
  sessions : List SessionRow

/-- `INSERT OR REPLACE` into `scrap_log` (UNIQUE `notice_id`): the
conflicting row is deleted and the new row inserted. -/
def upsertLog (log : List ScrapLogRow) (row : ScrapLogRow) : List ScrapLogRow :=
  log.filter (fun r => decide (r.notice_id ≠ row.notice_id)) ++ [row]

/-- `INSERT OR REPLACE` into `nuri_notices` (PRIMARY KEY `notice_id`). -/
def upsertNotice (rows : List NoticeRow) (row : NoticeRow) : List NoticeRow :=
  rows.filter (fun r => decide (r.notice_id ≠ row.notice_id)) ++ [row]

/-- `CrawlerStorage.is_already_done`. -/
def is_already_done (st : StorageState) (id : String) : Bool :=
  st.scrap_log.any (fun r => r.notice_id == id && r.status == "SUCCESS")

/-- `CrawlerStorage.log_error`. -/
def log_error (st : StorageState) (id : String) (msg : String) (now : Nat) :
    StorageState :=
  {st with scrap_log := upsertLog st.scrap_log ⟨id, "FAILED", some msg, now⟩}

/-- Injected outcome of the `save_notice` transaction: which of the two
`INSERT OR REPLACE` statements (if any) raises. -/
inductive SaveFail where
  | ok
  | atNotices
  | atLog
  deriving DecidableEq

/-- `CrawlerStorage.save_notice`: both writes run inside one `with self.conn`
transaction. On an exception the transaction rolls back to the incoming
state, `log_error` records a FAILED row, and the exception re-raises
(the returned `Bool` is `true` when it propagates to the caller). -/
def save_notice (st : StorageState) (data : NoticeRow) (now : Nat)
    (fp : SaveFail) : StorageState × Bool :=
  match fp with
  | .ok =>
    let st1 := {st with notices := upsertNotice st.notices data}
    let successRow : ScrapLogRow := ⟨data.notice_id, "SUCCESS", none, now⟩
    let st2 := {st1 with scrap_log := upsertLog st1.scrap_log successRow}
    (st2, false)
  | .atNotices => (log_error st data.notice_id "save failed" now, true)
  | .atLog =>
    -- the notices write succeeded inside the transaction but is rolled back
    (log_error st data.notice_id "save failed" now, true)

/-- `CrawlerStorage.start_session`: inserts a RUNNING row, returns lastrowid. -/
def start_session (st : StorageState) (now : Nat) : StorageState × Nat :=
  let sid := st.sessions.length + 1
  ({st with sessions := st.sessions ++ [⟨sid, now, none, 0, 0, 0, 0, "RUNNING"⟩]}, sid)

/-- Python `stats.get(key, 0)` on the stats dict. -/
def dictGet (d : List (String × Nat)) (key : String) : Nat :=
  match d with
  | [] => 0
  | (k, v) :: rest => if k = key then v else dictGet rest key

/-- `CrawlerStorage.finish_session`: the SQL UPDATE reads the keys
`found` / `collected` / `skipped` / `errors` from the stats dict,
defaulting to 0. -/
def finish_session (st : StorageState) (session_id : Nat)
    (stats : List (String × Nat)) (now : Nat) : StorageState :=
  {st with sessions := st.sessions.map (fun r =>
    if r.id = session_id then
      {r with finished_at := some now,
              total_found := dictGet stats "found",
              total_collected := dictGet stats "collected",
              total_skipped := dictGet stats "skipped",
              total_errors := dictGet stats "errors",
              status := "COMPLETED"}
    else r)}

/-! ## Orchestrator (`crawler.py`) -/

/-- `CrawlerStats`. -/
structure CrawlerStats where
  total_found : Nat := 0
  total_collected : Nat := 0
  total_skipped : Nat := 0
  total_errors : Nat := 0
  pages_processed : Nat := 0
  pages_failed : Nat := 0
  deriving DecidableEq

/-- `CrawlerStats.to_dict`. -/
def to_dict (s : CrawlerStats) : List (String × Nat) :=
  [("total_found", s.total_found),
   ("total_collected", s.total_collected),
   ("total_skipped", s.total_skipped),
   ("total_errors", s.total_errors),
   ("pages_processed", s.pages_processed),
   ("pages_failed", s.pages_failed)]

/-- In-memory state of a `NuriCrawler` run: the stats accumulator, the
storage, and the `collected_notices` result list. -/
structure PipeState where
  stats : CrawlerStats
  store : StorageState
  collected : List NoticeDTO

/-- Environment for one raw notice of a page: the transformer's output for
it, the detail-fetch response (used when `fetch_details`), and the injected
outcome of its storage transaction. -/
structure RecordInput where
  transformed : Option NoticeDTO
  detail : Option JVal
  saveFail : SaveFail

/-- The serialization done in `NuriCrawler._save_notice` before
`storage.save_notice`: `to_dict()` plus the `raw_data` JSON dump
(`'{}'`, i.e. the empty dict, when `raw_data` is falsy). -/
def dtoToRow (dto : NoticeDTO) : NoticeRow :=
  { notice_id := dto.notice_id
    title := dto.title
    org_name := some dto.org_name
    notice_type := some dto.notice_type
    bid_method := dto.bid_method
    due_date := dto.due_date
    announce_date := dto.announce_date
    budget := dto.budget
    demand_company := dto.demand_company
    detail_url := dto.detail_url
    raw_data := dto.raw_data.getD [] }

/-- The DTO that reaches the validation gate: `_fetch_and_enrich_detail`
runs only when `config.fetch_details`, and a failed detail fetch leaves the
DTO unchanged. -/
def effective_dto (dto : NoticeDTO) (r : RecordInput) (fetch_details : Bool) :
    NoticeDTO :=
  if fetch_details then
    match r.detail with
    | some d => enrich_with_detail dto d
    | none => dto
  else dto

/-- `NuriCrawler._process_notice` (with `_save_notice` inlined):
transform-skip, dedup-skip, optional enrichment, validation gate, then the
save. A save exception increments `total_errors` in `_save_notice`,
re-raises, and the record-level `except Exception` increments it again and
swallows the exception. -/
def process_notice (st : PipeState) (r : RecordInput) (fetch_details : Bool)
    (now : Nat) : PipeState :=
  match r.transformed with
  | none =>
    {st with stats := {st.stats with total_skipped := st.stats.total_skipped + 1}}
  | some dto0 =>
    if is_already_done st.store dto0.notice_id then
      {st with stats := {st.stats with total_skipped := st.stats.total_skipped + 1}}
    else
      let dto := effective_dto dto0 r fetch_details
      match validate_notice_dto dto with
      | .error _ =>
        {st with stats := {st.stats with total_errors := st.stats.total_errors + 1}}
      | .ok _ =>
        let saved := save_notice st.store (dtoToRow dto) now r.saveFail
        if saved.2 then
          {st with store := saved.1,
                   stats := {st.stats with total_errors := st.stats.total_errors + 2}}
        else
          {st with store := saved.1,
                   stats := {st.stats with total_collected := st.stats.total_collected + 1},
                   collected := st.collected ++ [dto]}

/-- The `for idx, raw_notice in enumerate(raw_notices, 1)` loop of
`_process_page`. -/
def process_records (st : PipeState) (rs : List RecordInput)
    (fetch_details : Bool) (now : Nat) : PipeState :=
  rs.foldl (fun s r => process_notice s r fetch_details now) st

/-- Outcome of `client.fetch_notice_list` for one page: the raised
`NonRetryableAPIError`, a falsy response, or a response whose extracted raw
notices are given with their per-record environments. -/
inductive FetchOutcome where
  | fatal
  | nullResp
  | ok (records : List RecordInput)

/-- `NuriCrawler._process_page`. An exception from the fetch is not caught
here: it propagates (`Except.error` carries the state at the raise point). -/
def process_page (st : PipeState) (f : FetchOutcome) (fetch_details : Bool)
    (now : Nat) : Except PipeState PipeState :=
  match f with
  | .fatal => .error st
  | .nullResp =>
    .ok {st with stats := {st.stats with pages_failed := st.stats.pages_failed + 1}}
  | .ok records =>
    let st1 := {st with stats := {st.stats with pages_processed := st.stats.pages_processed + 1}}
    if records.isEmpty then .ok st1
    else
      let st2 := {st1 with stats := {st1.stats with total_found := st1.stats.total_found + records.length}}
      .ok (process_records st2 records fetch_details now)

/-- The `for page in range(1, config.max_pages + 1)` loop of
`run_with_config`. -/
def runPagesAux (fetch_details : Bool) (now : Nat) :
    PipeState → List FetchOutcome → Except PipeState PipeState
  | st, [] => .ok st
  | st, f :: rest =>
    match process_page st f fetch_details now with
    | .ok st1 => runPagesAux fetch_details now st1 rest
    | .error st1 => .error st1

/-- Result of a run: the final state and whether the fatal exception was
re-raised to the caller. -/
structure RunResult where
  state : PipeState
  aborted : Bool

/-- `NuriCrawler.run_with_config`: reset stats, `start_session`, page loop,
then `finish_session` — on the fatal path too, before re-raising. -/
def run_with_config (store0 : StorageState) (pages : List FetchOutcome)
    (fetch_details : Bool) (now : Nat) : RunResult :=
  let started := start_session store0 now
  let st0 : PipeState := ⟨{}, started.1, []⟩
  match runPagesAux fetch_details now st0 pages with
  | .ok st =>
    { state := {st with store := finish_session st.store started.2 (to_dict st.stats) now},
      aborted := false }
  | .error st =>
    { state := {st with store := finish_session st.store started.2 (to_dict st.stats) now},
      aborted := true }

/-! ## Client theorems -/

lemma runAttempts_5xx_step (env : Nat → Exchange) (m attempt : Nat)
    (rest : List Nat) (code : Nat) (hdr : Option (Option Nat)) (body : JVal)
    (henv : env attempt = .resp code hdr body)
    (h5 : 500 ≤ code ∧ code < 600) (hlt : attempt < m) :
    runAttempts env m (attempt :: rest) =
      ⟨(runAttempts env m rest).outcome,
       backoffWait attempt :: (runAttempts env m rest).sleeps,
       (runAttempts env m rest).requests + 1⟩ := by
  simp only [runAttempts, henv]
  rw [if_neg (by omega), if_pos h5, if_pos hlt]

lemma runAttempts_5xx_last (env : Nat → Exchange) (m attempt : Nat)
    (rest : List Nat) (code : Nat) (hdr : Option (Option Nat)) (body : JVal)
    (henv : env attempt = .resp code hdr body)
    (h5 : 500 ≤ code ∧ code < 600) (hge : ¬ attempt < m) :
    runAttempts env m (attempt :: rest) = ⟨.nullResult, [], 1⟩ := by
  simp only [runAttempts, henv]
  rw [if_neg (by omega), if_pos h5, if_neg hge]

/-- C6: with `maxAttempts = 3`, base backoff 2s and cap 10s, a request whose
every attempt draws an HTTP 5xx response sleeps 2s after the first attempt
and 4s after the second, each wait bounded by the 10s cap, performs no sleep
after the final attempt (two sleeps for three attempts) and yields null. -/
theorem c6_backoff_on_5xx (codes : Nat → Nat) (hdrs : Nat → Option (Option Nat))
    (bodies : Nat → JVal) (h : ∀ i, 500 ≤ codes i ∧ codes i < 600) :
    make_request (fun i => .resp (codes i) (hdrs i) (bodies i)) 3 =
      ⟨.nullResult, [2, 4], 3⟩ ∧
    ∀ w ∈ (make_request (fun i => .resp (codes i) (hdrs i) (bodies i)) 3).sleeps,
      w ≤ RETRY_BACKOFF_MAX := by
  have e : make_request (fun i => .resp (codes i) (hdrs i) (bodies i)) 3 =
      ⟨.nullResult, [2, 4], 3⟩ := by
    show runAttempts _ 3 [1, 2, 3] = _
    rw [runAttempts_5xx_step _ 3 1 [2, 3] _ _ _ rfl (h 1) (by omega),
        runAttempts_5xx_step _ 3 2 [3] _ _ _ rfl (h 2) (by omega),
        runAttempts_5xx_last _ 3 3 [] _ _ _ rfl (h 3) (by omega)]
    rfl
  refine ⟨e, ?_⟩
  rw [e]
  decide

/-- C6 witness: the statement at codes ≡ 503. -/
theorem c6_backoff_on_5xx_witness :
    make_request (fun _ => .resp 503 none .jnull) 3 =
      ⟨.nullResult, [2, 4], 3⟩ ∧
    ∀ w ∈ (make_request (fun _ => .resp 503 none .jnull) 3).sleeps,
      w ≤ RETRY_BACKOFF_MAX :=
  c6_backoff_on_5xx (fun _ => 503) (fun _ => none) (fun _ => .jnull)
    (fun _ => by norm_num)

/-- C3 counterexample: three consecutive 429 responses (no `Retry-After`
header) exhaust `maxAttempts = 3` — each 429 consumes an attempt slot and
the request yields null, so rate-limit retries are not unlimited. -/
theorem c3_rate_limit_exhausts_budget :
    make_request (fun _ => .resp 429 none .jnull) 3 =
      ⟨.nullResult, [60, 60, 60], 3⟩ := rfl

lemma runAttempts_all_429 (env : Nat → Exchange) (m : Nat)
    (hdr : Nat → Option Nat) (bodies : Nat → JVal)
    (h : ∀ i, env i = .resp 429 (Option.map some (hdr i)) (bodies i)) :
    ∀ l : List Nat, runAttempts env m l =
      ⟨.nullResult, l.map (fun i => (hdr i).getD RATE_LIMIT_WAIT), l.length⟩ := by
  intro l
  induction l with
  | nil => rfl
  | cons a tl ih =>
    simp only [runAttempts, h a]
    cases hc : hdr a with
    | none => simp [hc, ih]
    | some n => simp [hc, ih]

/-- C3 amended: on HTTP 429 the client sleeps exactly the `Retry-After`
duration (default 60s) and retries, but each 429 consumes an attempt slot:
a run of `maxAttempts` consecutive 429 responses exhausts the attempt budget
and the request yields null. -/
theorem c3_rate_limit_sleep_and_budget (env : Nat → Exchange) (m : Nat)
    (hdr : Nat → Option Nat) (bodies : Nat → JVal)
    (h : ∀ i, env i = .resp 429 (Option.map some (hdr i)) (bodies i)) :
    make_request env m =
      ⟨.nullResult, (List.range' 1 m).map (fun i => (hdr i).getD RATE_LIMIT_WAIT), m⟩ := by
  have := runAttempts_all_429 env m hdr bodies h (List.range' 1 m)
  simpa [make_request, List.length_range'] using this

/-- C3 amended witness: two 429 responses with `Retry-After: 5` give two 5s
waits and then null. -/
theorem c3_rate_limit_sleep_and_budget_witness :
    make_request (fun _ => .resp 429 (some (some 5)) .jnull) 2 =
      ⟨.nullResult, [5, 5], 2⟩ :=
  c3_rate_limit_sleep_and_budget (fun _ => .resp 429 (some (some 5)) .jnull) 2
    (fun _ => some 5) (fun _ => .jnull) (fun _ => rfl)

/-- C10: a 429 whose `Retry-After` header does not parse as an integer is
not slept on and not retried: the `int(...)` failure reaches the generic
handler, which raises `NonRetryableAPIError` immediately — one request,
no sleep, fatal outcome. -/
theorem c10_unparseable_retry_after (env : Nat → Exchange) (m : Nat)
    (b : JVal) (hm : 1 ≤ m) (h : env 1 = .resp 429 (some none) b) :
    make_request env m = ⟨.fatal, [], 1⟩ := by
  obtain ⟨k, rfl⟩ : ∃ k, m = k + 1 := ⟨m - 1, by omega⟩
  show runAttempts env (k + 1) (List.range' 1 (k + 1)) = _
  rw [List.range'_succ]
  simp [runAttempts, h]

/-- C10 witness. -/
theorem c10_unparseable_retry_after_witness :
    make_request (fun _ => .resp 429 (some none) .jnull) 3 = ⟨.fatal, [], 1⟩ :=
  c10_unparseable_retry_after (fun _ => .resp 429 (some none) .jnull) 3 .jnull
    (by norm_num) rfl

/-! ## Transformer theorems -/

/-- C5: a response that is itself a JSON array is NOT returned directly —
the leading non-dict guard of `extract_notices` returns `[]` first, so the
source's `isinstance(response, list)` passthrough is unreachable and a bare
array yields the empty sequence. -/
theorem c5_list_response_yields_empty :
    extract_notices (.jarr [.jstr "x"]) = [] ∧
    extract_notices (.jarr [.jstr "x"]) ≠ [JVal.jstr "x"] := by
  refine ⟨rfl, ?_⟩
  intro hcontra
  exact List.noConfusion hcontra

/-! ## Storage theorems -/

/-- Shared sample data for concrete instantiations. -/
def sampleDTO : NoticeDTO :=
  { notice_id := "20240001", title := "정상 공고", org_name := "기관",
    notice_type := "물품" }

def sampleRow : NoticeRow := dtoToRow sampleDTO

/-- C9: `save_notice` is one atomic unit. On success both the Record upsert
and the SUCCESS CompletionRecord upsert commit; if either write fails the
whole unit rolls back (the notices table is exactly the incoming one), a
FAILED CompletionRecord is upserted for the id, and the failure propagates
to the caller. -/
theorem c9_save_notice_atomic (st : StorageState) (data : NoticeRow) (now : Nat) :
    save_notice st data now .ok =
      ({ notices := upsertNotice st.notices data,
         scrap_log := upsertLog st.scrap_log ⟨data.notice_id, "SUCCESS", none, now⟩,
         sessions := st.sessions }, false) ∧
    ∀ fp : SaveFail, fp ≠ .ok →
      save_notice st data now fp =
        ({ notices := st.notices,
           scrap_log := upsertLog st.scrap_log ⟨data.notice_id, "FAILED", some "save failed", now⟩,
           sessions := st.sessions }, true) := by
  constructor
  · rfl
  · intro fp hfp
    cases fp with
    | ok => exact absurd rfl hfp
    | atNotices => rfl
    | atLog => rfl

/-- C9 witness: the failing-write case at a concrete store. -/
theorem c9_save_notice_atomic_witness :
    save_notice ⟨[], [], []⟩ sampleRow 5 .atLog =
      ({ notices := [],
         scrap_log := upsertLog [] ⟨sampleRow.notice_id, "FAILED", some "save failed", 5⟩,
         sessions := [] }, true) :=
  (c9_save_notice_atomic ⟨[], [], []⟩ sampleRow 5).2 .atLog (by decide)

/-- C2: `finish_session` is handed `stats.to_dict()`, whose keys are
`total_found` / `total_collected` / `total_skipped` / `total_errors`, but it
looks up `found` / `collected` / `skipped` / `errors`, so every counter it
writes is the default 0 — the row does NOT receive the accumulated values.
End time and COMPLETED status are written as claimed. -/
theorem c2_session_counters_written_as_zero :
    finish_session ⟨[], [], [⟨1, 0, none, 0, 0, 0, 0, "RUNNING"⟩]⟩ 1
        (to_dict ⟨10, 8, 2, 1, 3, 0⟩) 5 =
      ⟨[], [], [⟨1, 0, some 5, 0, 0, 0, 0, "COMPLETED"⟩]⟩ ∧
    (finish_session ⟨[], [], [⟨1, 0, none, 0, 0, 0, 0, "RUNNING"⟩]⟩ 1
        (to_dict ⟨10, 8, 2, 1, 3, 0⟩) 5).sessions ≠
      [⟨1, 0, some 5, 10, 8, 2, 1, "COMPLETED"⟩] := by
  refine ⟨rfl, ?_⟩
  decide

/-! ## Pipeline lemmas -/

lemma enrich_notice_id (dto : NoticeDTO) (d : JVal) :
    (enrich_with_detail dto d).notice_id = dto.notice_id := by
  cases d <;> simp only [enrich_with_detail]
  split_ifs <;> (split <;> rfl)

lemma enrich_title (dto : NoticeDTO) (d : JVal) :
    (enrich_with_detail dto d).title = dto.title := by
  cases d <;> simp only [enrich_with_detail]
  split_ifs <;> (split <;> rfl)

lemma effective_dto_notice_id (dto : NoticeDTO) (r : RecordInput) (fd : Bool) :
    (effective_dto dto r fd).notice_id = dto.notice_id := by
  unfold effective_dto
  split
  · split
    · exact enrich_notice_id _ _
    · rfl
  · rfl

lemma effective_dto_title (dto : NoticeDTO) (r : RecordInput) (fd : Bool) :
    (effective_dto dto r fd).title = dto.title := by
  unfold effective_dto
  split
  · split
    · exact enrich_title _ _
    · rfl
  · rfl

/-- The completion-ledger invariant: at most one `scrap_log` row per id. -/
def atMostOnePerId (st : StorageState) : Prop :=
  (st.scrap_log.map (fun r => r.notice_id)).Nodup

lemma nodup_upsertLog (log : List ScrapLogRow) (row : ScrapLogRow)
    (h : (log.map (fun r => r.notice_id)).Nodup) :
    ((upsertLog log row).map (fun r => r.notice_id)).Nodup := by
  unfold upsertLog
  rw [List.map_append]
  refine List.Nodup.append ?_ (List.nodup_singleton _) ?_
  · exact ((List.filter_sublist _).map _).nodup h
  · intro a ha hb
    simp only [List.mem_map, List.mem_filter] at ha
    obtain ⟨r, ⟨_, hpr⟩, rfl⟩ := ha
    rw [decide_eq_true_eq] at hpr
    simp only [List.map_cons, List.map_nil, List.mem_singleton] at hb
    exact hpr hb

lemma isDone_upsertLog_of_ne (log : List ScrapLogRow) (row : ScrapLogRow)
    (id : String) (hne : row.notice_id ≠ id)
    (h : log.any (fun r => r.notice_id == id && r.status == "SUCCESS") = true) :
    (upsertLog log row).any (fun r => r.notice_id == id && r.status == "SUCCESS") = true := by
  rw [List.any_eq_true] at h ⊢
  obtain ⟨r, hr, hp⟩ := h
  refine ⟨r, ?_, hp⟩
  unfold upsertLog
  rw [List.mem_append]
  left
  rw [List.mem_filter]
  refine ⟨hr, ?_⟩
  rw [decide_eq_true_eq]
  have hid : r.notice_id = id := by
    have := ((Bool.and_eq_true _ _).mp hp).1
    exact beq_iff_eq.mp this
  rw [hid]
  exact fun hc => hne hc.symm

/-- How `process_notice` can change the completion ledger: either it leaves
it untouched, or it upserts exactly one row whose id was not SUCCESS in the
incoming store. -/
lemma process_notice_scrap_log (st : PipeState) (r : RecordInput) (fd : Bool)
    (now : Nat) :
    (process_notice st r fd now).store.scrap_log = st.store.scrap_log ∨
    ∃ row : ScrapLogRow,
      (process_notice st r fd now).store.scrap_log =
        upsertLog st.store.scrap_log row ∧
      is_already_done st.store row.notice_id = false := by
  obtain ⟨tr, det, sf⟩ := r
  cases tr with
  | none => exact Or.inl rfl
  | some dto0 =>
    by_cases hdone : is_already_done st.store dto0.notice_id = true
    · left
      simp [process_notice, hdone]
    · have hdone' : is_already_done st.store dto0.notice_id = false :=
        Bool.eq_false_iff.mpr hdone
      cases hv : validate_notice_dto (effective_dto dto0 ⟨some dto0, det, sf⟩ fd) with
      | error e =>
        left
        simp [process_notice, hdone', hv]
      | ok u =>
        right
        have hid : (effective_dto dto0 ⟨some dto0, det, sf⟩ fd).notice_id = dto0.notice_id :=
          effective_dto_notice_id _ _ _
        cases sf with
        | ok =>
          refine ⟨⟨dto0.notice_id, "SUCCESS", none, now⟩, ?_, hdone'⟩
          simp [process_notice, hdone', hv, save_notice, dtoToRow, hid]
        | atNotices =>
          refine ⟨⟨dto0.notice_id, "FAILED", some "save failed", now⟩, ?_, hdone'⟩
          simp [process_notice, hdone', hv, save_notice, log_error, dtoToRow, hid]
        | atLog =>
          refine ⟨⟨dto0.notice_id, "FAILED", some "save failed", now⟩, ?_, hdone'⟩
          simp [process_notice, hdone', hv, save_notice, log_error, dtoToRow, hid]

/-! ## Pipeline theorems -/

/-- C1: the completion ledger keeps at most one row per id across any
pipeline step, and SUCCESS is monotonic: a pipeline step never changes an
id's SUCCESS status (in particular never overwrites it to FAILED), and a
record whose id is already SUCCESS is skipped — the step only increments
`total_skipped` and touches nothing else. -/
theorem c1_ledger_unique_and_success_monotonic (st : PipeState)
    (r : RecordInput) (fd : Bool) (now : Nat) (id : String)
    (hnd : atMostOnePerId st.store) :
    atMostOnePerId (process_notice st r fd now).store ∧
    (is_already_done st.store id = true →
      is_already_done (process_notice st r fd now).store id = true) ∧
    (∀ dto, r.transformed = some dto →
      is_already_done st.store dto.notice_id = true →
      process_notice st r fd now =
        {st with stats := {st.stats with total_skipped := st.stats.total_skipped + 1}}) := by
  refine ⟨?_, ?_, ?_⟩
  · rcases process_notice_scrap_log st r fd now with hlog | ⟨row, hlog, _⟩
    · unfold atMostOnePerId
      rw [hlog]
      exact hnd
    · unfold atMostOnePerId
      rw [hlog]
      exact nodup_upsertLog _ _ hnd
  · intro hid
    simp only [is_already_done] at hid ⊢
    rcases process_notice_scrap_log st r fd now with hlog | ⟨row, hlog, hrow⟩
    · rw [hlog]
      exact hid
    · rw [hlog]
      refine isDone_upsertLog_of_ne _ _ _ ?_ hid
      intro hc
      rw [hc] at hrow
      simp only [is_already_done] at hrow
      rw [hid] at hrow
      exact Bool.noConfusion hrow
  · intro dto hdto hdone
    simp [process_notice, hdto, hdone]

/-- C1 witness: a store already holding SUCCESS for `sampleDTO`'s id skips
the record. -/
theorem c1_ledger_unique_and_success_monotonic_witness :
    atMostOnePerId (process_notice
        ⟨{}, ⟨[], [⟨"20240001", "SUCCESS", none, 0⟩], []⟩, []⟩
        ⟨some sampleDTO, none, SaveFail.ok⟩ false 3).store ∧
    (is_already_done
        (⟨{}, ⟨[], [⟨"20240001", "SUCCESS", none, 0⟩], []⟩, []⟩ : PipeState).store
        "20240001" = true →
      is_already_done (process_notice
        ⟨{}, ⟨[], [⟨"20240001", "SUCCESS", none, 0⟩], []⟩, []⟩
        ⟨some sampleDTO, none, SaveFail.ok⟩ false 3).store "20240001" = true) ∧
    (∀ dto, (⟨some sampleDTO, none, SaveFail.ok⟩ : RecordInput).transformed = some dto →
      is_already_done
        (⟨{}, ⟨[], [⟨"20240001", "SUCCESS", none, 0⟩], []⟩, []⟩ : PipeState).store
        dto.notice_id = true →
      process_notice ⟨{}, ⟨[], [⟨"20240001", "SUCCESS", none, 0⟩], []⟩, []⟩
          ⟨some sampleDTO, none, SaveFail.ok⟩ false 3 =
        {(⟨{}, ⟨[], [⟨"20240001", "SUCCESS", none, 0⟩], []⟩, []⟩ : PipeState) with
          stats := {(⟨{}, ⟨[], [⟨"20240001", "SUCCESS", none, 0⟩], []⟩, []⟩ : PipeState).stats with
            total_skipped := (⟨{}, ⟨[], [⟨"20240001", "SUCCESS", none, 0⟩], []⟩, []⟩ : PipeState).stats.total_skipped + 1}}) :=
  c1_ledger_unique_and_success_monotonic
    ⟨{}, ⟨[], [⟨"20240001", "SUCCESS", none, 0⟩], []⟩, []⟩
    ⟨some sampleDTO, none, SaveFail.ok⟩ false 3 "20240001"
    (by unfold atMostOnePerId; decide)

/-- C7 counterexample: a persistence failure increments `total_errors` by
TWO (once in `_save_notice`, once more in the record-level handler), not by
exactly one as claimed. -/
theorem c7_save_failure_double_counts :
    (process_notice ⟨{}, ⟨[], [], []⟩, []⟩
        ⟨some sampleDTO, none, SaveFail.atLog⟩ false 0).stats.total_errors = 2 ∧
    ¬ (process_notice ⟨{}, ⟨[], [], []⟩, []⟩
        ⟨some sampleDTO, none, SaveFail.atLog⟩ false 0).stats.total_errors = 1 := by
  exact ⟨rfl, by decide⟩

/-- C7 amended: every caught per-record exception leaves the loop running
(the page fold continues with the next record) and increments
`total_errors` — by exactly one for a validation failure, but by exactly
two for a persistence failure (the save handler and the record handler each
count it once); a successful save leaves `total_errors` unchanged. -/
theorem c7_record_error_isolation (st : PipeState) (r : RecordInput)
    (rs : List RecordInput) (fd : Bool) (now : Nat) (dto : NoticeDTO)
    (htr : r.transformed = some dto)
    (hnew : is_already_done st.store dto.notice_id = false) :
    ((∃ e, validate_notice_dto (effective_dto dto r fd) = Except.error e) →
      (process_notice st r fd now).stats.total_errors = st.stats.total_errors + 1) ∧
    (validate_notice_dto (effective_dto dto r fd) = Except.ok () →
      r.saveFail ≠ SaveFail.ok →
      (process_notice st r fd now).stats.total_errors = st.stats.total_errors + 2) ∧
    (validate_notice_dto (effective_dto dto r fd) = Except.ok () →
      r.saveFail = SaveFail.ok →
      (process_notice st r fd now).stats.total_errors = st.stats.total_errors) ∧
    process_records st (r :: rs) fd now =
      process_records (process_notice st r fd now) rs fd now := by
  refine ⟨?_, ?_, ?_, rfl⟩
  · rintro ⟨e, he⟩
    simp [process_notice, htr, hnew, he]
  · intro hok hfp
    cases hsf : r.saveFail with
    | ok => exact absurd hsf hfp
    | atNotices => simp [process_notice, htr, hnew, hok, save_notice, hsf]
    | atLog => simp [process_notice, htr, hnew, hok, save_notice, hsf]
  · intro hok hfp
    simp [process_notice, htr, hnew, hok, save_notice, hfp]

/-- C7 amended witness: the persistence-failure case at a concrete state. -/
theorem c7_record_error_isolation_witness :
    ((∃ e, validate_notice_dto
        (effective_dto sampleDTO ⟨some sampleDTO, none, SaveFail.atLog⟩ false) =
          Except.error e) →
      (process_notice ⟨{}, ⟨[], [], []⟩, []⟩
          ⟨some sampleDTO, none, SaveFail.atLog⟩ false 0).stats.total_errors =
        (⟨{}, ⟨[], [], []⟩, []⟩ : PipeState).stats.total_errors + 1) ∧
    (validate_notice_dto
        (effective_dto sampleDTO ⟨some sampleDTO, none, SaveFail.atLog⟩ false) =
        Except.ok () →
      (⟨some sampleDTO, none, SaveFail.atLog⟩ : RecordInput).saveFail ≠ SaveFail.ok →
      (process_notice ⟨{}, ⟨[], [], []⟩, []⟩
          ⟨some sampleDTO, none, SaveFail.atLog⟩ false 0).stats.total_errors =
        (⟨{}, ⟨[], [], []⟩, []⟩ : PipeState).stats.total_errors + 2) ∧
    (validate_notice_dto
        (effective_dto sampleDTO ⟨some sampleDTO, none, SaveFail.atLog⟩ false) =
        Except.ok () →
      (⟨some sampleDTO, none, SaveFail.atLog⟩ : RecordInput).saveFail = SaveFail.ok →
      (process_notice ⟨{}, ⟨[], [], []⟩, []⟩
          ⟨some sampleDTO, none, SaveFail.atLog⟩ false 0).stats.total_errors =
        (⟨{}, ⟨[], [], []⟩, []⟩ : PipeState).stats.total_errors) ∧
    process_records ⟨{}, ⟨[], [], []⟩, []⟩
        (⟨some sampleDTO, none, SaveFail.atLog⟩ :: []) false 0 =
      process_records (process_notice ⟨{}, ⟨[], [], []⟩, []⟩
        ⟨some sampleDTO, none, SaveFail.atLog⟩ false 0) [] false 0 :=
  c7_record_error_isolation ⟨{}, ⟨[], [], []⟩, []⟩
    ⟨some sampleDTO, none, SaveFail.atLog⟩ [] false 0 sampleDTO rfl rfl

/-- A DTO carrying the placeholder title. -/
def invalidDTO : NoticeDTO :=
  { notice_id := "X9", title := NO_TITLE, org_name := "기관", notice_type := "물품" }

/-- C8: a record whose id is empty or whose title is the placeholder
sentinel is never persisted by the pipeline: the validation gate rejects it
(its validation raises) before the store's save is reached, so the store is
untouched and the record is discarded from the result list. -/
theorem c8_invalid_record_never_persisted (st : PipeState) (r : RecordInput)
    (fd : Bool) (now : Nat) (dto : NoticeDTO) (htr : r.transformed = some dto)
    (hbad : dto.notice_id = "" ∨ dto.title = NO_TITLE) :
    (process_notice st r fd now).store = st.store ∧
    (process_notice st r fd now).collected = st.collected ∧
    (∃ e, validate_notice_dto (effective_dto dto r fd) = Except.error e) := by
  have hid := effective_dto_notice_id dto r fd
  have htit := effective_dto_title dto r fd
  have hval : ∃ e, validate_notice_dto (effective_dto dto r fd) = Except.error e := by
    unfold validate_notice_dto
    rw [hid, htit]
    rcases hbad with hb | hb
    · rw [if_pos hb]
      exact ⟨_, rfl⟩
    · by_cases hemp : dto.notice_id = ""
      · rw [if_pos hemp]
        exact ⟨_, rfl⟩
      · rw [if_neg hemp, if_pos (Or.inr hb)]
        exact ⟨_, rfl⟩
  obtain ⟨e, he⟩ := hval
  by_cases hdone : is_already_done st.store dto.notice_id = true
  · exact ⟨by simp [process_notice, htr, hdone], by simp [process_notice, htr, hdone], e, he⟩
  · have hdone' : is_already_done st.store dto.notice_id = false :=
      Bool.eq_false_iff.mpr hdone
    exact ⟨by simp [process_notice, htr, hdone', he],
           by simp [process_notice, htr, hdone', he], e, he⟩

/-- C8 witness: a placeholder-title DTO against an empty store. -/
theorem c8_invalid_record_never_persisted_witness :
    (process_notice ⟨{}, ⟨[], [], []⟩, []⟩
        ⟨some invalidDTO, none, SaveFail.ok⟩ false 0).store =
      (⟨{}, ⟨[], [], []⟩, []⟩ : PipeState).store ∧
    (process_notice ⟨{}, ⟨[], [], []⟩, []⟩
        ⟨some invalidDTO, none, SaveFail.ok⟩ false 0).collected =
      (⟨{}, ⟨[], [], []⟩, []⟩ : PipeState).collected ∧
    (∃ e, validate_notice_dto
        (effective_dto invalidDTO ⟨some invalidDTO, none, SaveFail.ok⟩ false) =
      Except.error e) :=
  c8_invalid_record_never_persisted ⟨{}, ⟨[], [], []⟩, []⟩
    ⟨some invalidDTO, none, SaveFail.ok⟩ false 0 invalidDTO rfl (Or.inr rfl)

/-- C4 counterexample: when the first page's list fetch raises a terminal
request error, the run does NOT continue with the next page: it aborts
(the error re-raises to the caller), the failed page is not counted in
`pages_failed`, and the second page is never processed (`pages_processed`
stays 0). -/
theorem c4_terminal_error_aborts_run :
    (run_with_config ⟨[], [], []⟩ [.fatal, .ok []] false 0).aborted = true ∧
    (run_with_config ⟨[], [], []⟩ [.fatal, .ok []] false 0).state.stats.pages_failed = 0 ∧
    (run_with_config ⟨[], [], []⟩ [.fatal, .ok []] false 0).state.stats.pages_processed = 0 :=
  ⟨rfl, rfl, rfl⟩

/-- C4 amended: a terminal (non-retryable) request error on a list-page
fetch is not caught by any page-level handler — it propagates out of the
page loop with the state unchanged, the session is still finalized
(status COMPLETED), and the run aborts with the remaining pages
unprocessed. Only a fetch that returns null (retries exhausted) counts the
page as failed and lets the run continue. -/
theorem c4_terminal_error_propagates (store0 : StorageState)
    (rest : List FetchOutcome) (fd : Bool) (now : Nat) (st : PipeState)
    (hs : store0.sessions = []) :
    process_page st .fatal fd now = .error st ∧
    process_page st .nullResp fd now =
      .ok {st with stats := {st.stats with pages_failed := st.stats.pages_failed + 1}} ∧
    (run_with_config store0 (.fatal :: rest) fd now).aborted = true ∧
    (run_with_config store0 (.fatal :: rest) fd now).state.stats = {} ∧
    (run_with_config store0 (.fatal :: rest) fd now).state.store.sessions =
      [⟨1, now, some now, 0, 0, 0, 0, "COMPLETED"⟩] := by
  obtain ⟨nots, log, sess⟩ := store0
  simp only at hs
  subst hs
  exact ⟨rfl, rfl, rfl, rfl, rfl⟩

/-- C4 amended witness. -/
theorem c4_terminal_error_propagates_witness :
    process_page ⟨{}, ⟨[], [], []⟩, []⟩ .fatal false 7 =
      .error ⟨{}, ⟨[], [], []⟩, []⟩ ∧
    process_page ⟨{}, ⟨[], [], []⟩, []⟩ .nullResp false 7 =
      .ok {(⟨{}, ⟨[], [], []⟩, []⟩ : PipeState) with
        stats := {(⟨{}, ⟨[], [], []⟩, []⟩ : PipeState).stats with
          pages_failed := (⟨{}, ⟨[], [], []⟩, []⟩ : PipeState).stats.pages_failed + 1}} ∧
    (run_with_config ⟨[], [], []⟩ (.fatal :: [.ok []]) false 7).aborted = true ∧
    (run_with_config ⟨[], [], []⟩ (.fatal :: [.ok []]) false 7).state.stats = {} ∧
    (run_with_config ⟨[], [], []⟩ (.fatal :: [.ok []]) false 7).state.store.sessions =
      [⟨1, 7, some 7, 0, 0, 0, 0, "COMPLETED"⟩] :=
  c4_terminal_error_propagates ⟨[], [], []⟩ [.ok []] false 7
    ⟨{}, ⟨[], [], []⟩, []⟩ rfl

end Nuri
